import Mathlib

/-!
Shallow embedding of the unified Brivas platform API gateway core:
the authorization engine (`packages/core/auth.go`) and the
schema-driven protocol synthesizers (`UnifiedAPIEngine`, `RESTHandler`,
`GraphQLHandler`, `MCPHandler` and their helpers).

Pure Go functions become Lean functions; external collaborators (the
JWT library, the LumaDB store) are modelled as explicit oracle
parameters; a Go `nil` pointer that would be dereferenced is modelled
as `Option.none`.
-/

namespace Brivas

/-- `Role` from auth.go: the closed set of user roles. -/
inductive Role where
  | anonymous
  | user
  | admin
  | reseller
  | service
  | superAdmin
deriving DecidableEq, Repr

/-- The string value of each `Role` constant in auth.go. -/
def Role.toNameString : Role → String
  | .anonymous => "anonymous"
  | .user => "user"
  | .admin => "admin"
  | .reseller => "reseller"
  | .service => "service"
  | .superAdmin => "super_admin"

/-- Splitter underlying `goSplit`: accumulates the current piece
(reversed) and cuts at each separator occurrence. -/
def splitOnSepAux (sep : Char) : List Char → List Char → List (List Char)
  | [], acc => [acc.reverse]
  | c :: rest, acc =>
    if c = sep then acc.reverse :: splitOnSepAux sep rest []
    else splitOnSepAux sep rest (c :: acc)

/-- Go's `strings.Split(s, sep)` for a one-character separator (the
only form the gateway uses: `"_"` and `" "`). -/
def goSplit (s : String) (sep : Char) : List String :=
  (splitOnSepAux sep s.data []).map String.mk

/-- Go's `strings.HasPrefix`. -/
def goStartsWith (s pre : String) : Bool := pre.data.isPrefixOf s.data

/-- Go's `strings.HasSuffix`. -/
def goHasSuffix (s suf : String) : Bool := suf.data.isSuffixOf s.data

/-- Go's `strings.ToUpper` (ASCII, which is all the gateway feeds
it). -/
def goToUpper (s : String) : String := ⟨s.data.map Char.toUpper⟩

/-- Go's `strings.ToLower` (ASCII). -/
def goToLower (s : String) : String := ⟨s.data.map Char.toLower⟩

/-- Go's `strings.Title` applied to a single word with no internal
spaces (how the gateway calls it): uppercase the first letter. -/
def goTitleWord (s : String) : String :=
  match s.data with
  | [] => ⟨[]⟩
  | c :: r => ⟨c.toUpper :: r⟩

/-- Go's `s[:len(s)-1]` on an ASCII string: drop the last character. -/
def goDropLastChar (s : String) : String := ⟨s.data.dropLast⟩

/-- Whether `pat` occurs as a contiguous run inside the list. -/
def containsAux (pat : List Char) : List Char → Bool
  | [] => pat.isEmpty
  | c :: rest => pat.isPrefixOf (c :: rest) || containsAux pat rest

/-- `Permission` from auth.go: the CRUD operation kinds. -/
inductive Permission where
  | select
  | insert
  | update
  | delete
deriving DecidableEq, Repr

/-- `Claims` from auth.go (the JWT registered claims and the
`Permissions`/`Metadata` fields play no role in the embedded logic and
are omitted). -/
structure Claims where
  accountID : String
  role : Role
  isLive : Bool
deriving DecidableEq, Repr

/-- `SelectPermission` from auth.go. A Go `nil` map is `none`; a
present map is an association list in declaration order. -/
structure SelectPermission where
  allowed : Bool
  columns : List String
  filter : Option (List (String × String))
  limit : Nat
deriving DecidableEq, Repr

/-- `InsertPermission` from auth.go. -/
structure InsertPermission where
  allowed : Bool
  columns : List String
  check : Option (List (String × String))
  set : Option (List (String × String))
deriving DecidableEq, Repr

/-- `UpdatePermission` from auth.go. -/
structure UpdatePermission where
  allowed : Bool
  columns : List String
  filter : Option (List (String × String))
deriving DecidableEq, Repr

/-- `DeletePermission` from auth.go. -/
structure DeletePermission where
  allowed : Bool
  filter : Option (List (String × String))
deriving DecidableEq, Repr

/-- `TablePermission` from auth.go; each operation's permission is a
possibly-nil pointer, hence `Option`. -/
structure TablePermission where
  role : Role
  table : String
  select : Option SelectPermission := none
  insert : Option InsertPermission := none
  update : Option UpdatePermission := none
  delete : Option DeletePermission := none
deriving DecidableEq, Repr

/-- The engine's `permissions` map (`map[string]map[Role]*TablePermission`),
modelled as an association list keyed by (table, role); keys are unique
in the default configuration, so first-match lookup is map lookup. -/
abbrev PermMap := List ((String × Role) × TablePermission)

/-- `AuthorizationEngine.GetPermission` from auth.go: two-level map
lookup, `nil` when either level misses. -/
def GetPermission (perms : PermMap) (table : String) (role : Role) :
    Option TablePermission :=
  match perms.find? (fun e => e.1.1 = table ∧ e.1.2 = role) with
  | some e => some e.2
  | none => none

/-- Permission entry "Accounts - Users see only their own data" from
`initializeDefaultPermissions` in auth.go. -/
def permAccountsUser : TablePermission where
  role := .user
  table := "accounts"
  select := some ⟨true, ["id", "email", "first_name", "last_name", "balance"],
    some [("id", "X-Account-ID")], 0⟩
  update := some ⟨true, ["first_name", "last_name", "phone_number"],
    some [("id", "X-Account-ID")]⟩

/-- Permission entry "Accounts - Admin has full access" from auth.go. -/
def permAccountsAdmin : TablePermission where
  role := .admin
  table := "accounts"
  select := some ⟨true, [], none, 0⟩
  insert := some ⟨true, [], none, none⟩
  update := some ⟨true, [], none⟩
  delete := some ⟨true, none⟩

/-- Permission entry "SMS History - Users see only their messages"
from auth.go. -/
def permSmsHistoryUser : TablePermission where
  role := .user
  table := "sms_history"
  select := some ⟨true, [], some [("account_id", "X-Account-ID")], 1000⟩
  insert := some ⟨true, [], none, some [("account_id", "X-Account-ID")]⟩

/-- Permission entry "Campaigns" from auth.go. -/
def permCampaignsUser : TablePermission where
  role := .user
  table := "campaigns"
  select := some ⟨true, [], some [("account_id", "X-Account-ID")], 0⟩
  insert := some ⟨true, [], none, some [("account_id", "X-Account-ID")]⟩
  update := some ⟨true, [], some [("account_id", "X-Account-ID")]⟩
  delete := some ⟨true, some [("account_id", "X-Account-ID")]⟩

/-- Permission entry "Sender IDs" from auth.go: inserts force
`account_id` and `status = 'pending'` via the `Set` map. -/
def permSenderIdsUser : TablePermission where
  role := .user
  table := "sender_ids"
  select := some ⟨true, [], some [("account_id", "X-Account-ID")], 0⟩
  insert := some ⟨true, [], none,
    some [("account_id", "X-Account-ID"), ("status", "'pending'")]⟩

/-- Permission entry "Billing" from auth.go. -/
def permBillingUser : TablePermission where
  role := .user
  table := "billing_transactions"
  select := some ⟨true, [], some [("tenant_id", "X-Account-ID")], 0⟩

/-- `initializeDefaultPermissions` from auth.go: the six `setPermission`
calls, in source order. -/
def defaultPermissions : PermMap :=
  [ (("accounts", Role.user), permAccountsUser),
    (("accounts", Role.admin), permAccountsAdmin),
    (("sms_history", Role.user), permSmsHistoryUser),
    (("campaigns", Role.user), permCampaignsUser),
    (("sender_ids", Role.user), permSenderIdsUser),
    (("billing_transactions", Role.user), permBillingUser) ]

/-- Go's `strings.Contains(s, pat)`. -/
def containsSubstr (s pat : String) : Bool :=
  containsAux pat.data s.data

/-- The result triple of `AuthorizationEngine.ApplyRLS` in auth.go:
`(query string, args []interface{}, err error)`. A Go `nil` error is
`none`; `nil` args is the empty list. -/
structure RLSResult where
  query : String
  args : List String
  err : Option String
deriving DecidableEq, Repr

/-- The loop body of `ApplyRLS` over the filter map: for each
`(col, val)` entry, a claim-derived value (prefix "X-") is replaced by
`claims.AccountID`, the condition `col = $N` is appended (N is
`len(args)+1`), and the resolved value is appended to the args. `n` is
the number of args accumulated so far. -/
def rlsLoop (claims : Claims) : List (String × String) → Nat → List String × List String
  | [], _ => ([], [])
  | (col, v) :: rest, n =>
    let v' := if goStartsWith v "X-" then claims.accountID else v
    let (conds, ags) := rlsLoop claims rest (n + 1)
    ((col ++ " = $" ++ toString (n + 1)) :: conds, v' :: ags)

/-- The tail of `ApplyRLS` after the operation switch has picked out
the filter map: a `nil` filter returns the query untouched; otherwise
the built conditions are conjoined with `AND` when the uppercased
query already contains `WHERE`, else with `WHERE`. -/
def applyFilterTail (query : String) (claims : Claims) :
    Option (List (String × String)) → RLSResult
  | none => ⟨query, [], none⟩
  | some filter =>
    let (conditions, ags) := rlsLoop claims filter 0
    if containsSubstr (goToUpper query) "WHERE" then
      ⟨query ++ " AND " ++ String.intercalate " AND " conditions, ags, none⟩
    else
      ⟨query ++ " WHERE " ++ String.intercalate " AND " conditions, ags, none⟩

/-- `AuthorizationEngine.ApplyRLS` from auth.go: looks up the
permission for the table and the claims' role, rejects a missing or
disallowed permission, returns the query untouched for inserts, and
otherwise rewrites the query via `applyFilterTail`. -/
def ApplyRLS (perms : PermMap) (query table : String) (op : Permission)
    (claims : Claims) : RLSResult :=
  match GetPermission perms table claims.role with
  | none => ⟨"", [], some ("no permission for " ++ claims.role.toNameString ++ " on " ++ table)⟩
  | some perm =>
    match op with
    | .select =>
      match perm.select with
      | some sp =>
        if sp.allowed then applyFilterTail query claims sp.filter
        else ⟨"", [], some "select not allowed"⟩
      | none => ⟨"", [], some "select not allowed"⟩
    | .update =>
      match perm.update with
      | some up =>
        if up.allowed then applyFilterTail query claims up.filter
        else ⟨"", [], some "update not allowed"⟩
      | none => ⟨"", [], some "update not allowed"⟩
    | .delete =>
      match perm.delete with
      | some dp =>
        if dp.allowed then applyFilterTail query claims dp.filter
        else ⟨"", [], some "delete not allowed"⟩
      | none => ⟨"", [], some "delete not allowed"⟩
    | .insert =>
      match perm.insert with
      | some ip =>
        if ip.allowed then ⟨query, [], none⟩ else ⟨"", [], some "insert not allowed"⟩
      | none => ⟨"", [], some "insert not allowed"⟩

/-- `toCamelCase` from the gateway helpers: split on `_`, capitalize
every part after the first (Go `strings.Title` on a single word
uppercases its first letter), join with no separator. -/
def toCamelCase (s : String) : String :=
  match goSplit s '_' with
  | [] => ""
  | p :: rest => String.join (p :: rest.map goTitleWord)

/-- `toPascalCase` from the gateway helpers: split on `_`, capitalize
every part, join with no separator. -/
def toPascalCase (s : String) : String :=
  String.join ((goSplit s '_').map goTitleWord)

/-- `toPlural` from the gateway helpers: a trailing `s` (checked
first) gets `es`, a trailing `y` becomes `ies`, everything else gets
`s`. -/
def toPlural (s : String) : String :=
  if goHasSuffix s "s" then s ++ "es"
  else if goHasSuffix s "y" then goDropLastChar s ++ "ies"
  else s ++ "s"

/-- The request headers the authentication middleware reads and
writes. Go's `Header.Get` returns `""` for an absent header, so an
absent header is the empty string. -/
structure Request where
  authorization : String
  xApiKey : String
  xAccountID : String
  xRole : String
deriving DecidableEq, Repr

/-- The Go literal `&Claims{Role: RoleAnonymous}` (zero values for the
remaining fields). -/
def anonymousClaims : Claims := ⟨"", .anonymous, false⟩

/-- The authorization engine's external collaborators:
`validateToken` is `ValidateToken` (the JWT library verifying
signature and expiry against the engine's secret; `none` is a parse or
validation error), and `apiKeyLookup` is the store round-trip
`SELECT id FROM accounts WHERE <keyColumn> = $1` (`none` when no row
matches). -/
structure AuthEngine where
  validateToken : String → Option Claims
  apiKeyLookup : (keyColumn : String) → (apiKey : String) → Option String

/-- `AuthorizationEngine.validateAPIKey` from auth.go: the `tk_`
prefix selects the test key column, the store is consulted, and a miss
degrades to anonymous claims. -/
def validateAPIKey (e : AuthEngine) (apiKey : String) : Claims :=
  let isLive := !(goStartsWith apiKey "tk_")
  let keyColumn := if !isLive then "test_secret_key" else "live_secret_key"
  match e.apiKeyLookup keyColumn apiKey with
  | none => anonymousClaims
  | some accountID => ⟨accountID, .user, isLive⟩

/-- The claims-resolution block of `AuthorizationEngine.Middleware`
from auth.go. The Go code declares `var claims *Claims` and only
assigns it on some paths; `none` models the `nil` pointer that the
subsequent `claims.AccountID` dereference would hit — a non-empty
`Authorization` header that is not exactly two space-separated parts
with a first part equal (case-insensitively) to `bearer` leaves
`claims` nil. -/
def middlewareClaims (e : AuthEngine) (r : Request) : Option Claims :=
  if r.authorization ≠ "" then
    let parts := goSplit r.authorization ' '
    if parts.length = 2 ∧ goToLower (parts.headD "") = "bearer" then
      match e.validateToken (parts.getD 1 "") with
      | some c => some c
      | none => some anonymousClaims
    else
      none
  else if r.xApiKey ≠ "" then
    some (validateAPIKey e r.xApiKey)
  else
    some anonymousClaims

/-- `AuthorizationEngine.Middleware` from auth.go: resolves claims,
then sets the `X-Account-ID` and `X-Role` headers from the resolved
claims (overwriting whatever the client sent) before invoking the next
handler. `none` models the `nil`-claims panic at `claims.AccountID`. -/
def Middleware (e : AuthEngine) (r : Request) : Option (Request × Claims) :=
  match middlewareClaims e r with
  | none => none
  | some c =>
    some ({ r with xAccountID := c.accountID, xRole := c.role.toNameString }, c)

/-- `Column` from the gateway source (`Name`, `Type`, `Nullable`,
`Default`). -/
structure Column where
  name : String
  colType : String
  nullable : Bool
  defaultExpr : String
deriving DecidableEq, Repr

/-- `TableSchema` from the gateway source; `Indexes` and `Relations`
play no role in the embedded handlers and are omitted. -/
structure TableSchema where
  name : String
  primaryKey : String
  columns : List Column := []
deriving DecidableEq, Repr

/-- `Schema` from the gateway source; the `Permissions` field is
unused by the embedded handlers. -/
structure Schema where
  tables : List TableSchema
deriving DecidableEq, Repr

/-- The observable outcome of `readinessCheck`: the HTTP status code
written and the `ready` and `tables` body fields. -/
structure ReadyResponse where
  status : Nat
  ready : Bool
  tables : Nat
deriving DecidableEq, Repr

/-- `UnifiedAPIEngine.readinessCheck` from the gateway source: `ready`
is `e.schema != nil && len(e.schema.Tables) > 0`; `tables` starts at 0
and is overwritten with the table count when a schema is loaded; a
not-ready response gets status 503, otherwise the implicit 200. The
engine's `schema *Schema` pointer is the `Option`. -/
def readinessCheck (schema : Option Schema) : ReadyResponse :=
  let ready : Bool :=
    match schema with
    | some s => decide (s.tables.length > 0)
    | none => false
  let tables : Nat :=
    match schema with
    | some s => s.tables.length
    | none => 0
  ⟨if ready then 200 else 503, ready, tables⟩

/-- A result row as shaped by `scanRowsToMaps`: column name to value
(values stringified, as the scanner does for byte slices). -/
abbrev Row := List (String × String)

/-- `RESTHandler.handleList` from the gateway source: it executes
`SELECT * FROM {table} LIMIT 100` with no arguments — the store
(external collaborator) answers an unfiltered select with the table's
rows, of which `LIMIT 100` keeps the first 100. The handler closure
captures only the table name and the store; no claims, permission or
row filter enters it. -/
def handleList (store : String → List Row) (tableName : String) : List Row :=
  (store tableName).take 100

/-- The statement builder shared by `handleCreate`, `resolveInsert`
and `handleBulkCreate` in the gateway source: one column name and one
`$i` placeholder per entry of the client-supplied object, values in
the same order. -/
def buildInsertStatement (tableName : String) (data : List (String × String)) :
    String × List String :=
  let columns := data.map Prod.fst
  let placeholders := (List.range data.length).map (fun i => "$" ++ toString (i + 1))
  ("INSERT INTO " ++ tableName ++ " (" ++ String.intercalate ", " columns ++
     ") VALUES (" ++ String.intercalate ", " placeholders ++ ") RETURNING *",
   data.map Prod.snd)

/-- `RESTHandler.handleCreate` from the gateway source: a body that
fails to decode yields 400 and nothing else happens; otherwise the
INSERT built from the client data is executed (`exec` is the store's
`QueryRow` + scan; `none` is a failed insert → 500, `some row` →
201). -/
def handleCreate (exec : String → List String → Option Row) (tableName : String)
    (body : Option (List (String × String))) : Nat × Option Row :=
  match body with
  | none => (400, none)
  | some data =>
    let qv := buildInsertStatement tableName data
    match exec qv.1 qv.2 with
    | none => (500, none)
    | some row => (201, some row)

/-- The observable outcome of `handleBulkCreate`: HTTP status and the
`inserted` and `data` body fields. -/
structure BulkResponse where
  status : Nat
  inserted : Nat
  data : List Row
deriving DecidableEq, Repr

/-- One row attempt of the `handleBulkCreate` loop: build the INSERT
from the row's own columns and run it against the store. -/
def attemptInsert (exec : String → List String → Option Row) (tableName : String)
    (data : List (String × String)) : Option Row :=
  let qv := buildInsertStatement tableName data
  exec qv.1 qv.2

/-- `RESTHandler.handleBulkCreate` from the gateway source: a body
that fails to decode as a JSON array yields 400; otherwise each row is
attempted independently in order, a failed attempt is skipped
(`continue`), and the response is 201 with the count and the
successfully inserted rows. -/
def handleBulkCreate (exec : String → List String → Option Row) (tableName : String)
    (body : Option (List (List (String × String)))) : BulkResponse :=
  match body with
  | none => ⟨400, 0, []⟩
  | some items =>
    let results := items.filterMap (attemptInsert exec tableName)
    ⟨201, results.length, results⟩

/-- The client-supplied arguments of the GraphQL plural query
(`where`, `orderBy`, `limit`, `offset`); `none` is an absent
argument. -/
structure GraphQLListArgs where
  whereArg : Option String
  orderBy : Option String
  limit : Option Int
  offset : Option Int
deriving DecidableEq, Repr

/-- The SQL text and argument list built by
`GraphQLHandler.resolveList` in the gateway source: the client `where`
and `orderBy` strings are concatenated into the statement text;
`limit` and `offset` become `$N` parameters. -/
def resolveListQuery (tableName : String) (a : GraphQLListArgs) :
    String × List Int :=
  let query := "SELECT * FROM " ++ tableName
  let argIdx := 1
  let query :=
    match a.whereArg with
    | some w => if w ≠ "" then query ++ " WHERE " ++ w else query
    | none => query
  let query :=
    match a.orderBy with
    | some ob => if ob ≠ "" then query ++ " ORDER BY " ++ ob else query
    | none => query
  let step :=
    match a.limit with
    | some l => (query ++ " LIMIT $" ++ toString argIdx, [l], argIdx + 1)
    | none => (query, ([] : List Int), argIdx)
  match a.offset with
  | some o => (step.1 ++ " OFFSET $" ++ toString step.2.2, step.2.1 ++ [o])
  | none => (step.1, step.2.1)

/-- The predicate list described by the row-filter rewriting claim:
one `column = $N` parameterized predicate per row-filter entry, `N`
its 1-based position. -/
def rlsSpecConditions (filter : List (String × String)) : List String :=
  filter.enum.map (fun e => e.2.1 ++ " = $" ++ toString (e.1 + 1))

/-- The argument list described by the claim: claim-derived tokens
(values starting with "X-") replaced by the caller's account ID,
literal tokens passed through. -/
def rlsSpecArgs (claims : Claims) (filter : List (String × String)) : List String :=
  filter.map (fun e => if goStartsWith e.2 "X-" then claims.accountID else e.2)

/-- The joining rule described by the claim: the predicates are
conjoined to the query with WHERE when the query contains no WHERE
yet, and with AND otherwise. -/
def rlsSpecQuery (query : String) (conds : List String) : String :=
  if containsSubstr (goToUpper query) "WHERE" then
    query ++ " AND " ++ String.intercalate " AND " conds
  else
    query ++ " WHERE " ++ String.intercalate " AND " conds

/-- The claim's phrase "allowed select/update/delete permission": for
those operations, `some filter` when the operation's sub-permission is
present and allowed. -/
def allowedFilter (perm : TablePermission) :
    Permission → Option (Option (List (String × String)))
  | .select =>
    match perm.select with
    | some sp => if sp.allowed then some sp.filter else none
    | none => none
  | .update =>
    match perm.update with
    | some up => if up.allowed then some up.filter else none
    | none => none
  | .delete =>
    match perm.delete with
    | some dp => if dp.allowed then some dp.filter else none
    | none => none
  | .insert => none

/-- The `ApplyRLS` filter loop produces exactly the position-indexed
predicates and the substituted argument list. -/
theorem rlsLoop_eq_spec (claims : Claims) (f : List (String × String)) (n : Nat) :
    rlsLoop claims f n =
      ((f.enumFrom n).map (fun e => e.2.1 ++ " = $" ++ toString (e.1 + 1)),
       rlsSpecArgs claims f) := by
  induction f generalizing n with
  | nil => rfl
  | cons hd tl ih =>
    obtain ⟨col, v⟩ := hd
    simp [rlsLoop, rlsSpecArgs, List.enumFrom, ih, List.map]

/-- The claim's description of the whole rewrite outcome: an absent
filter leaves the query and arguments unchanged; a present filter
yields the extended statement and the substituted argument list. -/
def rlsSpecResult (query : String) (claims : Claims) :
    Option (List (String × String)) → RLSResult
  | none => ⟨query, [], none⟩
  | some f => ⟨rlsSpecQuery query (rlsSpecConditions f), rlsSpecArgs claims f, none⟩

/-- The tail of `ApplyRLS` agrees with the claim's description of the
rewrite on every present filter and passes a `nil` filter through. -/
theorem applyFilterTail_eq_spec (query : String) (claims : Claims) :
    ∀ F : Option (List (String × String)),
      applyFilterTail query claims F = rlsSpecResult query claims F
  | none => rfl
  | some f => by
    have h := rlsLoop_eq_spec claims f 0
    simp only [applyFilterTail, h, rlsSpecResult, rlsSpecQuery, rlsSpecConditions,
      List.enum]
    split <;> rfl

/-- The successes of a row-wise `filterMap` are counted by `countP`. -/
theorem length_filterMap_eq_countP {α β : Type} (g : α → Option β) (l : List α) :
    (l.filterMap g).length = l.countP (fun a => (g a).isSome) := by
  induction l with
  | nil => rfl
  | cons a t ih =>
    cases hg : g a <;> simp [List.filterMap_cons, hg, List.countP_cons, ih]

/-- **C2** — Fail-closed on missing permission: for every (table,
role) pair with no entry in the permission set, `ApplyRLS` returns an
error (the Forbidden "no permission" message) for every one of the
four operations, together with an empty query and no arguments. -/
theorem C2_missing_permission_fails_closed
    (perms : PermMap) (query table : String) (op : Permission) (claims : Claims)
    (h : GetPermission perms table claims.role = none) :
    ApplyRLS perms query table op claims =
      ⟨"", [],
       some ("no permission for " ++ claims.role.toNameString ++ " on " ++ table)⟩ := by
  simp [ApplyRLS, h]

/-- Witness for C2: the default permission set has no entry for
(audit_logs, anonymous); `ApplyRLS` rejects a select there with an
empty query, no arguments and the Forbidden message. -/
theorem C2_missing_permission_fails_closed_witness :
    GetPermission defaultPermissions "audit_logs" Role.anonymous = none ∧
    ApplyRLS defaultPermissions "SELECT * FROM audit_logs" "audit_logs"
        .select ⟨"A", .anonymous, false⟩ =
      ⟨"", [], some "no permission for anonymous on audit_logs"⟩ :=
  ⟨by decide,
   C2_missing_permission_fails_closed defaultPermissions "SELECT * FROM audit_logs"
     "audit_logs" .select ⟨"A", .anonymous, false⟩ (by decide)⟩

/-- **C4** — Naming determinism: the five concrete naming-transform
equalities the spec states, on the transforms as implemented by the
gateway helpers (pure functions of their input). -/
theorem C4_naming_determinism :
    toCamelCase "sms_history" = "smsHistory" ∧
    toPascalCase "sms_history" = "SmsHistory" ∧
    toPlural "account" = "accounts" ∧
    toPlural "history" = "histories" ∧
    toPlural "status" = "statuses" := by decide

/-- **C7** — Readiness contract: `/ready` answers 200 with
`ready = true` exactly when a schema is loaded and holds at least one
table; in every other case it answers 503 with `ready = false`; the
`tables` field is the loaded schema's table count and 0 when no schema
is loaded. -/
theorem C7_readiness_contract :
    ∀ s : Option Schema,
      (((readinessCheck s).status = 200 ∧ (readinessCheck s).ready = true) ↔
        (∃ sc, s = some sc ∧ 0 < sc.tables.length)) ∧
      (((readinessCheck s).status = 503 ∧ (readinessCheck s).ready = false) ↔
        ¬ ∃ sc, s = some sc ∧ 0 < sc.tables.length) ∧
      ((readinessCheck s).tables =
        match s with
        | none => 0
        | some sc => sc.tables.length) := by
  intro s
  cases s with
  | none => simp [readinessCheck]
  | some sc =>
    by_cases h : 0 < sc.tables.length <;> simp [readinessCheck, h]

/-- **C8** — Best-effort bulk insert: once the body parses as an
array, every row is attempted in array order, failures are skipped,
the status is always 201, `inserted` counts exactly the rows whose
insert succeeded, and `data` is the ordered list of those rows; a body
that is not a JSON array gets 400 and a response independent of the
store (no insert attempted). -/
theorem C8_bulk_insert_best_effort :
    ∀ (exec : String → List String → Option Row) (tableName : String),
      (∀ items : List (List (String × String)),
        (handleBulkCreate exec tableName (some items)).status = 201 ∧
        (handleBulkCreate exec tableName (some items)).inserted =
          items.countP (fun d => (attemptInsert exec tableName d).isSome) ∧
        (handleBulkCreate exec tableName (some items)).data =
          items.filterMap (attemptInsert exec tableName)) ∧
      handleBulkCreate exec tableName none = ⟨400, 0, []⟩ := by
  intro exec tableName
  refine ⟨fun items => ⟨rfl, ?_, rfl⟩, rfl⟩
  simpa [handleBulkCreate] using
    length_filterMap_eq_countP (attemptInsert exec tableName) items

/-- The store used by the C1 demonstration: the `sms_history` table
holds one row belonging to account "B". -/
def storeC1 : String → List Row :=
  fun t => if t = "sms_history" then [[("id", "7"), ("account_id", "B")]] else []

/-- The REST list route as the gateway mounts it: `GenerateAPIs`
mounts `RESTHandler.Routes()` directly on the router — no
authorization middleware is installed and `handleList` never calls
`ApplyRLS` — so the response to `GET /api/v1/{table}` is `handleList`
alone, whatever credentials the request carries. -/
def restListEndpoint (store : String → List Row) (tableName : String)
    (_r : Request) : List Row :=
  handleList store tableName

/-- **C1** — refuted by the code: `sms_history` is a table whose
select row filter maps `account_id` to the caller's account ID, yet a
list request carrying credentials for account "A" returns the row
whose `account_id` is the distinct account "B", because the mounted
handler executes an unfiltered `SELECT * FROM sms_history LIMIT 100`.
-/
theorem C1_list_returns_foreign_account_row :
    (permSmsHistoryUser.select.map SelectPermission.filter) =
      some (some [("account_id", "X-Account-ID")]) ∧
    restListEndpoint storeC1 "sms_history" ⟨"Bearer token-of-account-A", "", "", ""⟩ =
      [[("id", "7"), ("account_id", "B")]] ∧
    ([("id", "7"), ("account_id", "B")] : Row).lookup "account_id" = some "B" ∧
    ("A" : String) ≠ "B" := by decide

/-- **C3** — refuted by the code: a request whose `Authorization`
header is non-empty but not exactly two space-separated parts with a
(case-insensitive) `Bearer` first part leaves the middleware's
`claims` pointer nil; the subsequent `claims.AccountID` dereference
panics (`none` here) instead of producing anonymous claims. This holds
for every token validator and API-key store. -/
theorem C3_malformed_auth_header_yields_no_claims :
    ∀ e : AuthEngine,
      middlewareClaims e ⟨"Basic Zm9v", "", "", ""⟩ = none ∧
      Middleware e ⟨"Basic Zm9v", "", "", ""⟩ = none ∧
      middlewareClaims e ⟨"Bearer a b", "", "", ""⟩ = none :=
  fun _ => ⟨rfl, rfl, rfl⟩

/-- **C5** — refuted by the code: the insert permission for
`sender_ids` under role `user` carries `status = 'pending'` in its
`Set` map, yet the INSERT built by the create handler keeps the
client-supplied `status = "approved"` value, and the authorization
step (`ApplyRLS`, insert case) returns that statement unchanged with
no arguments — nothing applies the configured default before the
statement reaches the store. -/
theorem C5_insert_defaults_not_applied :
    (permSenderIdsUser.insert.map InsertPermission.set) =
      some (some [("account_id", "X-Account-ID"), ("status", "'pending'")]) ∧
    buildInsertStatement "sender_ids" [("status", "approved")] =
      ("INSERT INTO sender_ids (status) VALUES ($1) RETURNING *", ["approved"]) ∧
    ApplyRLS defaultPermissions
        "INSERT INTO sender_ids (status) VALUES ($1) RETURNING *" "sender_ids"
        .insert ⟨"A", .user, true⟩ =
      ⟨"INSERT INTO sender_ids (status) VALUES ($1) RETURNING *", [], none⟩ := by
  decide

/-- **C10** — identity headers cannot be spoofed: the claims the
middleware resolves (and hence its entire outcome) are unchanged by
whatever `X-Account-ID`/`X-Role` values the client supplied, and
whenever the middleware completes, the downstream-visible
`X-Account-ID` and `X-Role` headers equal the resolved claims' account
ID and role. -/
theorem C10_identity_headers_unspoofable :
    ∀ (e : AuthEngine) (r : Request) (v w : String),
      Middleware e { r with xAccountID := v, xRole := w } = Middleware e r ∧
      (∀ (r' : Request) (c : Claims), Middleware e r = some (r', c) →
        r'.xAccountID = c.accountID ∧ r'.xRole = c.role.toNameString) := by
  intro e r v w
  constructor
  · rfl
  · intro r' c h
    cases hm : middlewareClaims e r with
    | none => simp [Middleware, hm] at h
    | some c2 =>
      simp only [Middleware, hm] at h
      obtain ⟨h1, h2⟩ := Prod.mk.injEq .. ▸ Option.some.injEq .. ▸ h
      subst h2
      subst h1
      exact ⟨rfl, rfl⟩

/-- Witness for C10: with a trivial engine and a request that spoofs
both identity headers, the middleware completes with anonymous claims
and the downstream headers equal those claims' fields. -/
theorem C10_identity_headers_unspoofable_witness :
    Middleware ⟨fun _ => none, fun _ _ => none⟩ ⟨"", "", "spoofA", "spoofR"⟩ =
      some (⟨"", "", "", "anonymous"⟩, anonymousClaims) ∧
    (Request.mk "" "" "" "anonymous").xAccountID = anonymousClaims.accountID ∧
    (Request.mk "" "" "" "anonymous").xRole = anonymousClaims.role.toNameString :=
  ⟨rfl,
   (C10_identity_headers_unspoofable ⟨fun _ => none, fun _ _ => none⟩
       ⟨"", "", "spoofA", "spoofR"⟩ "spoofA" "spoofR").2
     ⟨"", "", "", "anonymous"⟩ anonymousClaims rfl⟩

/-- A permission whose select row filter is present but has no
entries (Go `map[string]string{}` rather than `nil`), exercising the
empty-filter case of the row-filter rewriting claim. -/
def permEmptyFilter : TablePermission where
  role := .user
  table := "t"
  select := some ⟨true, [], some [], 0⟩

/-- Counterexample to **C6** as stated: with a present-but-empty row
filter, `ApplyRLS` does not return the query unchanged — it appends a
dangling ` WHERE ` with an empty predicate list (the code only tests
the map for `nil`, not for emptiness). -/
theorem C6_empty_filter_not_unchanged :
    ApplyRLS [(("t", Role.user), permEmptyFilter)] "SELECT * FROM t" "t"
        .select ⟨"A", .user, true⟩ =
      ⟨"SELECT * FROM t WHERE ", [], none⟩ ∧
    ("SELECT * FROM t WHERE " : String) ≠ "SELECT * FROM t" := by decide

/-- **C6** (amended) — Row-filter rewriting: for every allowed
select/update/delete permission, when the row filter is absent (nil)
the query and arguments are returned unchanged; when the filter is
present (empty included), the returned statement is the query extended
with one parameterized `column = $N` predicate per filter entry —
joined with WHERE when the query contains no WHERE and with AND
otherwise — and the argument list substitutes the caller's account ID
for each claim-derived ("X-"-prefixed) token and passes literal tokens
through. -/
theorem C6_row_filter_rewriting
    (perms : PermMap) (query table : String) (op : Permission)
    (claims : Claims) (perm : TablePermission)
    (F : Option (List (String × String)))
    (hperm : GetPermission perms table claims.role = some perm)
    (hop : allowedFilter perm op = some F) :
    ApplyRLS perms query table op claims = rlsSpecResult query claims F := by
  cases op with
  | select =>
    cases hsel : perm.select with
    | none => simp [allowedFilter, hsel] at hop
    | some sp =>
      by_cases ha : sp.allowed
      · simp only [allowedFilter, hsel, ha, if_pos, Option.some.injEq] at hop
        subst hop
        simp [ApplyRLS, hperm, hsel, ha, applyFilterTail_eq_spec]
      · simp [allowedFilter, hsel, ha] at hop
  | update =>
    cases hup : perm.update with
    | none => simp [allowedFilter, hup] at hop
    | some up =>
      by_cases ha : up.allowed
      · simp only [allowedFilter, hup, ha, if_pos, Option.some.injEq] at hop
        subst hop
        simp [ApplyRLS, hperm, hup, ha, applyFilterTail_eq_spec]
      · simp [allowedFilter, hup, ha] at hop
  | delete =>
    cases hdel : perm.delete with
    | none => simp [allowedFilter, hdel] at hop
    | some dp =>
      by_cases ha : dp.allowed
      · simp only [allowedFilter, hdel, ha, if_pos, Option.some.injEq] at hop
        subst hop
        simp [ApplyRLS, hperm, hdel, ha, applyFilterTail_eq_spec]
      · simp [allowedFilter, hdel, ha] at hop
  | insert => simp [allowedFilter] at hop

/-- Witness for the amended C6: the default sms_history/user select
permission rewrites an unfiltered select into
`... WHERE account_id = $1` with the caller's account ID as the single
argument. -/
theorem C6_row_filter_rewriting_witness :
    GetPermission defaultPermissions "sms_history"
        (Claims.mk "A" .user true).role = some permSmsHistoryUser ∧
    allowedFilter permSmsHistoryUser .select =
      some (some [("account_id", "X-Account-ID")]) ∧
    ApplyRLS defaultPermissions "SELECT * FROM sms_history" "sms_history"
        .select ⟨"A", .user, true⟩ =
      ⟨"SELECT * FROM sms_history WHERE account_id = $1", ["A"], none⟩ :=
  ⟨by decide, by decide,
   C6_row_filter_rewriting defaultPermissions "SELECT * FROM sms_history"
     "sms_history" .select ⟨"A", .user, true⟩ permSmsHistoryUser
     (some [("account_id", "X-Account-ID")]) (by decide) (by decide)⟩

/-- Counterexample to **C9** as stated: two GraphQL list requests to
the same handler that differ only in the client-supplied free-form
`where` string produce different SQL texts (and identical parameter
lists) — the client string is concatenated into the statement, not
parameterized. -/
theorem C9_resolveList_text_depends_on_client_string :
    (resolveListQuery "accounts" ⟨some "1=1", none, none, none⟩).1 ≠
      (resolveListQuery "accounts" ⟨some "1=1 OR 1=1", none, none, none⟩).1 ∧
    (resolveListQuery "accounts" ⟨some "1=1", none, none, none⟩).2 =
      (resolveListQuery "accounts" ⟨some "1=1 OR 1=1", none, none, none⟩).2 := by
  decide

/-- **C9** (amended) — the injection-safety boundary holds for the
row-filter assembly: the SQL text and error outcome of `ApplyRLS`
depend only on the query, table, operation and the caller's role (the
filter columns come from the permission configuration); the caller's
identity values influence only the argument list. -/
theorem C9_rls_text_independent_of_identity
    (perms : PermMap) (query table : String) (op : Permission)
    (c c' : Claims) (h : c.role = c'.role) :
    (ApplyRLS perms query table op c).query =
      (ApplyRLS perms query table op c').query ∧
    (ApplyRLS perms query table op c).err =
      (ApplyRLS perms query table op c').err := by
  cases hp : GetPermission perms table c.role with
  | none =>
    have hp' : GetPermission perms table c'.role = none := h ▸ hp
    simp [ApplyRLS, hp, hp', h]
  | some perm =>
    have hp' : GetPermission perms table c'.role = some perm := h ▸ hp
    cases op with
    | select =>
      cases hsel : perm.select with
      | none => simp [ApplyRLS, hp, hp', hsel]
      | some sp =>
        by_cases ha : sp.allowed
        · simp only [ApplyRLS, hp, hp', hsel, ha, if_pos, applyFilterTail_eq_spec]
          cases sp.filter <;> simp [rlsSpecResult]
        · simp [ApplyRLS, hp, hp', hsel, ha]
    | update =>
      cases hup : perm.update with
      | none => simp [ApplyRLS, hp, hp', hup]
      | some up =>
        by_cases ha : up.allowed
        · simp only [ApplyRLS, hp, hp', hup, ha, if_pos, applyFilterTail_eq_spec]
          cases up.filter <;> simp [rlsSpecResult]
        · simp [ApplyRLS, hp, hp', hup, ha]
    | delete =>
      cases hdel : perm.delete with
      | none => simp [ApplyRLS, hp, hp', hdel]
      | some dp =>
        by_cases ha : dp.allowed
        · simp only [ApplyRLS, hp, hp', hdel, ha, if_pos, applyFilterTail_eq_spec]
          cases dp.filter <;> simp [rlsSpecResult]
        · simp [ApplyRLS, hp, hp', hdel, ha]
    | insert =>
      cases hins : perm.insert with
      | none => simp [ApplyRLS, hp, hp', hins]
      | some ip => by_cases ha : ip.allowed <;> simp [ApplyRLS, hp, hp', hins, ha]

/-- Witness for the amended C9: two different user accounts produce
the same SQL text and the same (non-)error for the sms_history list
rewrite. -/
theorem C9_rls_text_independent_of_identity_witness :
    (Claims.mk "A" .user true).role = (Claims.mk "B" .user false).role ∧
    (ApplyRLS defaultPermissions "SELECT * FROM sms_history" "sms_history"
        .select ⟨"A", .user, true⟩).query =
      (ApplyRLS defaultPermissions "SELECT * FROM sms_history" "sms_history"
        .select ⟨"B", .user, false⟩).query ∧
    (ApplyRLS defaultPermissions "SELECT * FROM sms_history" "sms_history"
        .select ⟨"A", .user, true⟩).err =
      (ApplyRLS defaultPermissions "SELECT * FROM sms_history" "sms_history"
        .select ⟨"B", .user, false⟩).err :=
  ⟨rfl,
   C9_rls_text_independent_of_identity defaultPermissions
     "SELECT * FROM sms_history" "sms_history" .select
     ⟨"A", .user, true⟩ ⟨"B", .user, false⟩ rfl⟩

end Brivas
